import Mathlib

/-! SLO resource adapter (`sumologic/resource_sumologic_slo.go`).

A shallow embedding of the Terraform resource for Sumo Logic SLOs: the domain
records, the configuration handle (`*schema.ResourceData`) as a key/value store
of dynamically typed Go values, the decoder `resourceToSLO` with Go's panicking
type assertions, the four lifecycle callbacks over an explicit gateway, and the
regular expressions of the schema validators.
-/

namespace Sumologic

/-! ## Go runtime values -/

/-- Go `error` values, identified by their message. -/
abbrev GoError := String

/-- Run-time panics raised by the decoder. -/
inductive Panic where
  /-- A single-value type assertion `x.(T)` on a value that is not a `T`
  (a nil interface included); `want` names `T`. -/
  | typeAssertion (want : String)
  /-- Slice index `i` out of range for length `len`. -/
  | indexOutOfRange (i len : Nat)
  /-- Field access through a nil pointer. -/
  | nilDereference
  deriving Repr, DecidableEq

/-- A `float64`, carried as its IEEE-754 bit pattern (never computed with). -/
structure Float64 where
  bits : Nat
  deriving Repr, DecidableEq

/-! ## Domain records -/

/-- Modelled from the spec: the declaration of `SLIQuery` is not in the source
file; its fields are those of the Query record (row_id, query, use_row_count,
field). -/
structure SLIQuery where
  RowId : String
  Query : String
  UseRowCount : Bool
  Field : String
  deriving Repr, DecidableEq

/-- The struct `SLIQueryGroup`, with the two fields `GetSLOIndicatorQueries` assigns. -/
structure SLIQueryGroup where
  QueryGroupType : String
  QueryGroup : List SLIQuery
  deriving Repr, DecidableEq

/-- The struct `SLOCompliance`, with the fields of the literal in `getSLOCompliance`. -/
structure SLOCompliance where
  ComplianceType : String
  Target : Int
  Timezone : String
  Size : String
  deriving Repr, DecidableEq

/-- The struct `SLOIndicator`, with the fields of the literal in `getSLOIndicator`. -/
structure SLOIndicator where
  EvaluationType : String
  QueryType : String
  Queries : List SLIQueryGroup
  deriving Repr, DecidableEq

/-- The struct `SLOLibrarySLO`, with the fields of the literal in `resourceToSLO`. -/
structure SLOLibrarySLO where
  ID : String
  Name : String
  Description : String
  Version : Int
  CreatedAt : String
  CreatedBy : String
  ModifiedAt : String
  ModifiedBy : String
  ParentID : String
  ContentType : String
  /-- The Go field `Type` (a reserved word here). -/
  Type_ : String
  IsSystem : Bool
  IsMutable : Bool
  IsLocked : Bool
  SignalType : String
  Compliance : SLOCompliance
  Indicator : SLOIndicator
  Service : String
  Application : String
  deriving Repr, DecidableEq

/-- The folder record returned by `GetSLOLibraryFolder`; only `ID` is read. -/
structure SLOLibraryFolder where
  ID : String
  deriving Repr, DecidableEq

/-- A Go `interface{}` value as it can sit in a configuration handle. -/
inductive Value where
  | nil
  | str (s : String)
  | int (n : Int)
  | bool (b : Bool)
  | float (f : Float64)
  | list (xs : List Value)
  | map (kvs : List (String × Value))
  | query (q : SLIQuery)
  | compliance (c : SLOCompliance)
  | indicator (i : SLOIndicator)

/-- Indexing a Go map `m[k]`: the stored value, or the nil interface. -/
def mapIndex (kvs : List (String × Value)) (k : String) : Value :=
  match kvs.find? (fun kv => kv.1 == k) with
  | some kv => kv.2
  | none => Value.nil

/-- Indexing a Go slice `xs[i]`, which panics out of range. -/
def sliceIndex (xs : List Value) (i : Nat) : Except Panic Value :=
  match xs.get? i with
  | some v => .ok v
  | none => .error (.indexOutOfRange i xs.length)

/-- The assertion `v.(string)`. -/
def asString : Value → Except Panic String
  | .str s => .ok s
  | _ => .error (.typeAssertion "string")

/-- The assertion `v.(int)`. -/
def asInt : Value → Except Panic Int
  | .int n => .ok n
  | _ => .error (.typeAssertion "int")

/-- The assertion `v.(bool)`. -/
def asBool : Value → Except Panic Bool
  | .bool b => .ok b
  | _ => .error (.typeAssertion "bool")

/-- The assertion `v.([]interface{})`. -/
def asList : Value → Except Panic (List Value)
  | .list xs => .ok xs
  | _ => .error (.typeAssertion "[]interface {}")

/-- The assertion `v.(map[string]interface{})`. -/
def asMap : Value → Except Panic (List (String × Value))
  | .map kvs => .ok kvs
  | _ => .error (.typeAssertion "map[string]interface {}")

/-- The assertion `v.(SLIQuery)`. -/
def asSLIQuery : Value → Except Panic SLIQuery
  | .query q => .ok q
  | _ => .error (.typeAssertion "SLIQuery")

/-! ## The configuration handle -/

/-- The handle `*schema.ResourceData`: the resource id, the stored fields, and the
host framework's verdict on a write (`none` accepts, `some err` rejects). The
framework is a library outside the source file; the handle is kept general: any key
may hold any Go value, and a key it does not hold reads as the nil interface. -/
structure ResourceData where
  id : String
  fields : List (String × Value)
  rejects : String → Value → Option GoError

namespace ResourceData

/-- The call `d.Id()`. -/
def Id (d : ResourceData) : String := d.id

/-- The call `d.SetId(v)`. -/
def SetId (d : ResourceData) (v : String) : ResourceData := { d with id := v }

/-- The call `d.Get(key)`: the stored value, or the nil interface for a key the handle does not hold. -/
def Get (d : ResourceData) (key : String) : Value := mapIndex d.fields key

/-- The call `d.Set(key, value)`: stores the value unless the host rejects the write,
in which case the handle is left as it was and the error is returned. -/
def Set (d : ResourceData) (key : String) (v : Value) : ResourceData × Option GoError :=
  match d.rejects key v with
  | some err => (d, some err)
  | none => ({ d with fields := (key, v) :: d.fields.filter (fun kv => !(kv.1 == key)) }, none)

end ResourceData

/-! ## Decoding the handle into an SLO -/

/-- Source `getSLOCompliance`. -/
def getSLOCompliance (d : ResourceData) : Except Panic SLOCompliance := do
  let complianceDict ← asMap (d.Get "compliance")
  let complianceType ← asString (mapIndex complianceDict "compliance_type")
  let target ← asInt (mapIndex complianceDict "target")
  let timezone ← asString (mapIndex complianceDict "timezone")
  let size ← asString (mapIndex complianceDict "size")
  pure { ComplianceType := complianceType, Target := target, Timezone := timezone, Size := size }

/-- The inner loop of `GetSLOIndicatorQueries` for outer index `i`: every slot `j`
of `qGroups` receives `qGroupRaw[i].(SLIQuery)`. -/
def decodeQueryGroup (i : Nat) (qGroupRaw : List Value) : Except Panic (List SLIQuery) :=
  (List.range qGroupRaw.length).mapM (fun _j => do
    let raw ← sliceIndex qGroupRaw i
    asSLIQuery raw)

/-- The body of the outer loop of `GetSLOIndicatorQueries` at index `i`. -/
def decodeQueries (queriesRaw : List Value) (i : Nat) : Except Panic SLIQueryGroup := do
  let raw ← sliceIndex queriesRaw i
  let qDict ← asMap raw
  let queryGroupType ← asString (mapIndex qDict "query_group_type")
  let qGroupRaw ← asList (mapIndex qDict "query_group")
  let qGroups ← decodeQueryGroup i qGroupRaw
  pure { QueryGroupType := queryGroupType, QueryGroup := qGroups }

/-- Source `GetSLOIndicatorQueries`. -/
def GetSLOIndicatorQueries (d : ResourceData) : Except Panic (List SLIQueryGroup) := do
  let queriesRaw ← asList (d.Get "queries")
  (List.range queriesRaw.length).mapM (decodeQueries queriesRaw)

/-- Source `getSLOIndicator`. -/
def getSLOIndicator (d : ResourceData) : Except Panic SLOIndicator := do
  let indicatorDict ← asMap (d.Get "indicator")
  let evaluationType ← asString (mapIndex indicatorDict "evaluation_type")
  let queryType ← asString (mapIndex indicatorDict "query_type")
  let queries ← GetSLOIndicatorQueries d
  pure { EvaluationType := evaluationType, QueryType := queryType, Queries := queries }

/-- Source `resourceToSLO`. -/
def resourceToSLO (d : ResourceData) : Except Panic SLOLibrarySLO := do
  let compliance ← getSLOCompliance d
  let indicator ← getSLOIndicator d
  let name ← asString (d.Get "name")
  let description ← asString (d.Get "description")
  let version ← asInt (d.Get "version")
  let createdAt ← asString (d.Get "created_at")
  let createdBy ← asString (d.Get "created_by")
  let modifiedAt ← asString (d.Get "modified_at")
  let modifiedBy ← asString (d.Get "modified_by")
  let parentID ← asString (d.Get "parent_id")
  let contentType ← asString (d.Get "content_type")
  let type ← asString (d.Get "type")
  let isSystem ← asBool (d.Get "is_system")
  let isMutable ← asBool (d.Get "is_mutable")
  let isLocked ← asBool (d.Get "is_locked")
  let signalType ← asString (d.Get "signal_type")
  let service ← asString (d.Get "service")
  let application ← asString (d.Get "application")
  pure {
    ID := d.Id, Name := name, Description := description, Version := version,
    CreatedAt := createdAt, CreatedBy := createdBy, ModifiedAt := modifiedAt,
    ModifiedBy := modifiedBy, ParentID := parentID, ContentType := contentType,
    Type_ := type, IsSystem := isSystem, IsMutable := isMutable, IsLocked := isLocked,
    SignalType := signalType, Compliance := compliance, Indicator := indicator,
    Service := service, Application := application }

/-! ## The remote gateway -/

/-- The methods of `*Client` the resource calls. Their bodies are not part of the
source file, so the gateway is a parameter: each method maps its arguments and
the server state to its Go results and the next server state. A pointer result
is an `Option` (`none` is the nil pointer); an `error` result is `Except` or
`Option GoError` (`none` is the nil error). -/
structure Client (σ : Type) where
  GetSLOLibraryFolder : String → σ → Except GoError (Option SLOLibraryFolder) × σ
  CreateSLO : SLOLibrarySLO → List (String × String) → σ → Except GoError String × σ
  SLORead : String → σ → Except GoError (Option SLOLibrarySLO) × σ
  UpdateSLO : SLOLibrarySLO → σ → Option GoError × σ
  DeleteSLO : String → σ → Option GoError × σ

/-- One gateway call, with its arguments, as recorded in the call log. -/
inductive Call where
  | getSLOLibraryFolder (id : String)
  | createSLO (slo : SLOLibrarySLO) (paramMap : List (String × String))
  | sloRead (id : String)
  | updateSLO (slo : SLOLibrarySLO)
  | deleteSLO (id : String)
  deriving Repr, DecidableEq

/-- How a lifecycle callback ends: it returns a Go `error` (`none` is nil, success)
or it panics. -/
inductive Result where
  | returned (err : Option GoError)
  | panicked (p : Panic)
  deriving Repr, DecidableEq

/-- The observable outcome of a callback: the handle and server state it leaves,
the gateway calls it made in order, and how it ended. -/
structure Run (σ : Type) where
  d : ResourceData
  server : σ
  calls : List Call
  result : Result

/-- The same run with `pre` put in front of its call log. -/
def Run.after {σ : Type} (pre : List Call) (r : Run σ) : Run σ :=
  { r with calls := pre ++ r.calls }

/-- The text of `fmt.Errorf("error setting fields for resource %s: %s", id, err)`. -/
def errorSettingFields (id : String) (err : GoError) : GoError :=
  "error setting fields for resource " ++ id ++ ": " ++ err

/-! ## Lifecycle callbacks -/

/-- The write-back of `resourceSumologicSLORead`, lines 288-301: fourteen `d.Set`
calls whose returned errors are dropped. -/
def setScalars (d : ResourceData) (slo : SLOLibrarySLO) : ResourceData :=
  let d := (d.Set "name" (.str slo.Name)).1
  let d := (d.Set "description" (.str slo.Description)).1
  let d := (d.Set "version" (.int slo.Version)).1
  let d := (d.Set "created_at" (.str slo.CreatedAt)).1
  let d := (d.Set "created_by" (.str slo.CreatedBy)).1
  let d := (d.Set "modified_at" (.str slo.ModifiedAt)).1
  let d := (d.Set "modified_by" (.str slo.ModifiedBy)).1
  let d := (d.Set "parent_id" (.str slo.ParentID)).1
  let d := (d.Set "content_type" (.str "slo")).1
  let d := (d.Set "is_mutable" (.bool slo.IsMutable)).1
  let d := (d.Set "is_locked" (.bool slo.IsLocked)).1
  let d := (d.Set "is_system" (.bool slo.IsSystem)).1
  let d := (d.Set "service" (.str slo.Service)).1
  let d := (d.Set "application" (.str slo.Application)).1
  d

/-- The write-back of `resourceSumologicSLORead`, lines 288-310: the scalars, then
`compliance` and `indicator`, whose rejection is returned as an error. -/
def writeBack (d : ResourceData) (slo : SLOLibrarySLO) : ResourceData × Option GoError :=
  let d := setScalars d slo
  match d.Set "compliance" (.compliance slo.Compliance) with
  | (d, some err) => (d, some (errorSettingFields d.Id err))
  | (d, none) =>
    match d.Set "indicator" (.indicator slo.Indicator) with
    | (d, some err) => (d, some (errorSettingFields d.Id err))
    | (d, none) => (d, none)

/-- Source `resourceSumologicSLORead`. The assertion `meta.(*Client)` is the typed
parameter `c`; the second argument of `SLORead` is the constant nil; the warning
written with `log.Printf` is not part of the outcome. -/
def resourceSumologicSLORead {σ : Type} (c : Client σ) (d : ResourceData) (s : σ) : Run σ :=
  match c.SLORead d.Id s with
  | (.error err, s1) => ⟨d, s1, [.sloRead d.Id], .returned (some err)⟩
  | (.ok none, s1) => ⟨d.SetId "", s1, [.sloRead d.Id], .returned none⟩
  | (.ok (some slo), s1) =>
    let r := writeBack d slo
    ⟨r.1, s1, [.sloRead d.Id], .returned r.2⟩

/-- The part of `resourceSumologicSLOCreate` from the parameter map on (lines
261-271), reached with the call log `pre` and the SLO to send. -/
def createAndRead {σ : Type} (c : Client σ) (d : ResourceData) (s : σ) (pre : List Call)
    (slo : SLOLibrarySLO) : Run σ :=
  let paramMap := [("parentId", slo.ParentID)]
  match c.CreateSLO slo paramMap s with
  | (.error err, s1) => ⟨d, s1, pre ++ [.createSLO slo paramMap], .returned (some err)⟩
  | (.ok sloDefinitionID, s1) =>
    (resourceSumologicSLORead c (d.SetId sloDefinitionID) s1).after
      (pre ++ [.createSLO slo paramMap])

/-- Source `resourceSumologicSLOCreate`. `rootFolder.ID` reads through the folder the
lookup returned, which panics when that is a nil pointer. -/
def resourceSumologicSLOCreate {σ : Type} (c : Client σ) (d : ResourceData) (s : σ) : Run σ :=
  if d.Id = "" then
    match resourceToSLO d with
    | .error p => ⟨d, s, [], .panicked p⟩
    | .ok slo =>
      let slo := { slo with Type_ := "SlosLibrarySlo" }
      if slo.ParentID = "" then
        match c.GetSLOLibraryFolder "root" s with
        | (.error err, s1) => ⟨d, s1, [.getSLOLibraryFolder "root"], .returned (some err)⟩
        | (.ok none, s1) => ⟨d, s1, [.getSLOLibraryFolder "root"], .panicked .nilDereference⟩
        | (.ok (some rootFolder), s1) =>
          createAndRead c d s1 [.getSLOLibraryFolder "root"]
            { slo with ParentID := rootFolder.ID }
      else
        createAndRead c d s [] slo
  else
    resourceSumologicSLORead c d s

/-- Source `resourceSumologicSLOUpdate`. -/
def resourceSumologicSLOUpdate {σ : Type} (c : Client σ) (d : ResourceData) (s : σ) : Run σ :=
  match resourceToSLO d with
  | .error p => ⟨d, s, [], .panicked p⟩
  | .ok slo =>
    let slo := { slo with Type_ := "SlosLibrarySloUpdate" }
    match c.UpdateSLO slo s with
    | (some err, s1) => ⟨d, s1, [.updateSLO slo], .returned (some err)⟩
    | (none, s1) => (resourceSumologicSLORead c d s1).after [.updateSLO slo]

/-- Source `resourceSumologicSLODelete`. -/
def resourceSumologicSLODelete {σ : Type} (c : Client σ) (d : ResourceData) (s : σ) : Run σ :=
  match resourceToSLO d with
  | .error p => ⟨d, s, [], .panicked p⟩
  | .ok slo =>
    match c.DeleteSLO slo.ID s with
    | (some err, s1) => ⟨d, s1, [.deleteSLO slo.ID], .returned (some err)⟩
    | (none, s1) => ⟨d, s1, [.deleteSLO slo.ID], .returned none⟩

/-- The SLO document Create sends: the decoded one, retagged. -/
def createDoc (slo : SLOLibrarySLO) : SLOLibrarySLO := { slo with Type_ := "SlosLibrarySlo" }

/-- The SLO document Update sends: the decoded one, retagged. -/
def updateDoc (slo : SLOLibrarySLO) : SLOLibrarySLO :=
  { slo with Type_ := "SlosLibrarySloUpdate" }

/-! ## The validator patterns -/

/-- The syntax tree of a regular expression in the fragment of Go's `regexp` syntax
that the schema uses. -/
inductive Regex where
  /-- A literal character. -/
  | char (c : Char)
  /-- An escaped literal character, as in `\.`. -/
  | escaped (c : Char)
  /-- The class `\d`, the ASCII digits. -/
  | digit
  /-- The class `[lo-hi]`. -/
  | range (lo hi : Char)
  /-- The assertion `^`, at the beginning of the text (no flag `m`). -/
  | beginText
  /-- The assertion `$`, at the end of the text (no flag `m`). -/
  | endText
  /-- Concatenation. -/
  | cat (a b : Regex)
  /-- Alternation `a|b`. -/
  | alt (a b : Regex)
  /-- A parenthesised group `(a)`. -/
  | group (a : Regex)
  /-- The optional `a?`. -/
  | quest (a : Regex)
  /-- The bounded repetition `a{min,max}`. -/
  | repeat (a : Regex) (min max : Nat)
  deriving Repr

/-- A position in the text: the number of characters before it and those after it. -/
abbrev Pos := Nat × List Char

/-- Consume one character satisfying `ok`, then go on with `k`. -/
def stepK (ok : Char → Bool) (x : Pos) (k : Pos → Bool) : Bool :=
  match x with
  | (n, c :: cs) => ok c && k (n + 1, cs)
  | (_, []) => false

/-- Match `m` between `lo` and `hi` times, then go on with `k`. -/
def repeatK (m : Pos → (Pos → Bool) → Bool) : Nat → Nat → Pos → (Pos → Bool) → Bool
  | _, 0, x, k => k x
  | 0, hi + 1, x, k => m x (fun y => repeatK m 0 hi y k) || k x
  | lo + 1, hi + 1, x, k => m x (fun y => repeatK m lo hi y k)

/-- Backtracking matcher: `r.matchK x k` holds when `r` matches some stretch of the
text starting at `x` such that `k` holds at the position where that stretch ends. -/
def Regex.matchK : Regex → Pos → (Pos → Bool) → Bool
  | .char c, x, k => stepK (fun d => d == c) x k
  | .escaped c, x, k => stepK (fun d => d == c) x k
  | .digit, x, k => stepK (fun d => decide ('0' ≤ d) && decide (d ≤ '9')) x k
  | .range lo hi, x, k => stepK (fun d => decide (lo ≤ d) && decide (d ≤ hi)) x k
  | .beginText, x, k => x.1 == 0 && k x
  | .endText, x, k => x.2.isEmpty && k x
  | .cat a b, x, k => a.matchK x (fun y => b.matchK y k)
  | .alt a b, x, k => a.matchK x k || b.matchK x k
  | .group a, x, k => a.matchK x k
  | .quest a, x, k => a.matchK x k || k x
  | .repeat a lo hi, x, k => repeatK (fun y k2 => a.matchK y k2) lo hi x k

/-- The pattern text of a syntax tree. -/
def Regex.render : Regex → String
  | .char c => c.toString
  | .escaped c => "\\" ++ c.toString
  | .digit => "\\d"
  | .range lo hi => "[" ++ lo.toString ++ "-" ++ hi.toString ++ "]"
  | .beginText => "^"
  | .endText => "$"
  | .cat a b => a.render ++ b.render
  | .alt a b => a.render ++ "|" ++ b.render
  | .group a => "(" ++ a.render ++ ")"
  | .quest a => a.render ++ "?"
  | .repeat a lo hi => a.render ++ "\x7b" ++ toString lo ++ "," ++ toString hi ++ "\x7d"

/-- Go's `(*Regexp).MatchString`: the pattern matches some stretch of the text,
starting anywhere. -/
def MatchString (re : Regex) (s : String) : Bool :=
  (List.range (s.toList.length + 1)).any
    (fun i => re.matchK (i, s.toList.drop i) (fun _ => true))

/-- Source constant `sloAggregationRegexString` (line 11). -/
def sloAggregationRegexString : String :=
  "^(Avg|Min|Max|Sum|(p[5-9][0-9])(\\.\\d\x7b1,3\x7d)?$)$"

/-- The syntax tree of `sloAggregationRegexString`, which `regexp.MustCompile` builds
as `aggrRegex`: the last alternative is `(p[5-9][0-9])(\.\d{1,3})?$`, with its own `$`. -/
def sloAggregationRegex : Regex :=
  .cat .beginText (.cat
    (.group
      (.alt (.cat (.char 'A') (.cat (.char 'v') (.char 'g')))
      (.alt (.cat (.char 'M') (.cat (.char 'i') (.char 'n')))
      (.alt (.cat (.char 'M') (.cat (.char 'a') (.char 'x')))
      (.alt (.cat (.char 'S') (.cat (.char 'u') (.char 'm')))
        (.cat (.group (.cat (.char 'p') (.cat (.range '5' '9') (.range '0' '9'))))
          (.cat (.quest (.group (.cat (.escaped '.') (.repeat .digit 1 3)))) .endText)))))))
    .endText)

/-- The pattern the specification gives for `aggregation`. -/
def specAggregationRegexString : String :=
  "^(Avg|Min|Max|Sum|p[5-9][0-9](\\.\\d\x7b1,3\x7d)?)$"

/-- The syntax tree of the specification's pattern. -/
def specAggregationRegex : Regex :=
  .cat .beginText (.cat
    (.group
      (.alt (.cat (.char 'A') (.cat (.char 'v') (.char 'g')))
      (.alt (.cat (.char 'M') (.cat (.char 'i') (.char 'n')))
      (.alt (.cat (.char 'M') (.cat (.char 'a') (.char 'x')))
      (.alt (.cat (.char 'S') (.cat (.char 'u') (.char 'm')))
        (.cat (.char 'p') (.cat (.range '5' '9') (.cat (.range '0' '9')
          (.quest (.group (.cat (.escaped '.') (.repeat .digit 1 3))))))))))))
    .endText)

/-- The character is a digit between `lo` and `hi`. -/
def isDigitBetween (lo hi : Char) (c : Char) : Bool := decide (lo ≤ c) && decide (c ≤ hi)

/-- A `.` followed by one to three digits. -/
def fractionForm : List Char → Bool
  | dot :: ds => dot == '.' && decide (1 ≤ ds.length) && decide (ds.length ≤ 3)
      && ds.all (isDigitBetween '0' '9')
  | [] => false

/-- The letter `p`, one digit 5-9, one digit 0-9, and optionally a fraction. -/
def percentileForm : List Char → Bool
  | p :: d1 :: d2 :: rest =>
    p == 'p' && isDigitBetween '5' '9' d1 && isDigitBetween '0' '9' d2
      && (rest.isEmpty || fractionForm rest)
  | _ => false

/-- The aggregations the specification accepts, in its words: `Avg`, `Min`, `Max`,
`Sum`, or a percentile. -/
def specAggregationAccepts (s : String) : Bool :=
  s == "Avg" || s == "Min" || s == "Max" || s == "Sum" || percentileForm s.toList

/-! ## The declared schema -/

/-- The keys the schema declares for the `compliance` mapping (lines 124-149). -/
def complianceSchemaKeys : List String := ["type", "target", "timezone", "size"]

/-- The keys the schema declares for the `indicator` mapping (lines 156-215). -/
def indicatorSchemaKeys : List String :=
  ["evaluation_type", "queries", "queryType", "threshold", "op", "aggregation", "size"]

/-- The top-level fields the schema declares (lines 51-244). -/
def schemaKeys : List String :=
  ["name", "description", "version", "created_at", "created_by", "modified_at",
   "modified_by", "parent_id", "is_system", "signal_type", "compliance", "indicator",
   "is_mutable", "is_locked", "service", "application", "post_request_map"]

/-! ## Example handles and gateways -/

/-- A host that accepts every write. -/
def acceptAll : String → Value → Option GoError := fun _ _ => none

/-- The fields a handle of the declared schema holds for scenario S1: the
`compliance` mapping has the keys `type`, `target`, `size`, the `indicator` mapping
nests `queries` and uses the key `queryType`, and `content_type` and `type` are not
fields of the schema. -/
def schemaFieldsS1 : List (String × Value) :=
  [("name", .str "checkout-latency"), ("description", .str "p95<300ms"),
   ("version", .int 0), ("created_at", .str ""), ("created_by", .str ""),
   ("modified_at", .str ""), ("modified_by", .str ""), ("parent_id", .str ""),
   ("is_system", .bool false), ("signal_type", .str "Latency"),
   ("compliance", .map [("type", .str "Rolling"), ("target", .int 99), ("size", .str "7d")]),
   ("indicator", .map
      [("evaluation_type", .str "Threshold"),
       ("queries", .list [.map
          [("query_group_type", .str "Threshold"),
           ("query_group", .list [.map
              [("row_id", .str "A"), ("query", .str "cpu"), ("use_row_count", .bool false),
               ("field", .str "")]])]]),
       ("queryType", .str "Metrics"), ("threshold", .float ⟨0x4072C00000000000⟩),
       ("op", .str "LessThan"), ("aggregation", .str "p95"), ("size", .str "5m")]),
   ("is_mutable", .bool false), ("is_locked", .bool false), ("service", .str ""),
   ("application", .str "")]

/-- The handle of scenario S1 before creation (empty id). -/
def handleS1 : ResourceData := ⟨"", schemaFieldsS1, acceptAll⟩

/-- The handle of scenario S1 once created, with the id `abc` (scenarios S4 to S6). -/
def handleS1Created : ResourceData := ⟨"abc", schemaFieldsS1, acceptAll⟩

/-- Two queries, used to tell the slots of a decoded group apart. -/
def queryA : SLIQuery := ⟨"A", "cpu", false, ""⟩

/-- The second example query. -/
def queryB : SLIQuery := ⟨"B", "mem", false, ""⟩

/-- Fields on which every assertion of `resourceToSLO` holds: the mappings use the
keys the decoder reads, `queries` is a top-level field holding `SLIQuery` values,
and `content_type` and `type` are present. -/
def decodableFields (parentId : String) : List (String × Value) :=
  [("name", .str "checkout-latency"), ("description", .str "p95<300ms"),
   ("version", .int 0), ("created_at", .str ""), ("created_by", .str ""),
   ("modified_at", .str ""), ("modified_by", .str ""), ("parent_id", .str parentId),
   ("content_type", .str "slo"), ("type", .str "SlosLibraryFolder"),
   ("is_system", .bool false), ("is_mutable", .bool false), ("is_locked", .bool false),
   ("signal_type", .str "Latency"),
   ("compliance", .map [("compliance_type", .str "Rolling"), ("target", .int 99),
      ("timezone", .str ""), ("size", .str "7d")]),
   ("indicator", .map [("evaluation_type", .str "Threshold"), ("query_type", .str "Metrics")]),
   ("queries", .list [.map [("query_group_type", .str "Threshold"),
      ("query_group", .list [.query queryA])]]),
   ("service", .str ""), ("application", .str "")]

/-- A decodable handle with the given id and parent id. -/
def decodableHandle (id parentId : String) : ResourceData :=
  ⟨id, decodableFields parentId, acceptAll⟩

/-- The SLO that `resourceToSLO` decodes from `decodableHandle id parentId`. -/
def decodedSLO (id parentId : String) : SLOLibrarySLO :=
  { ID := id, Name := "checkout-latency", Description := "p95<300ms", Version := 0,
    CreatedAt := "", CreatedBy := "", ModifiedAt := "", ModifiedBy := "",
    ParentID := parentId, ContentType := "slo", Type_ := "SlosLibraryFolder",
    IsSystem := false, IsMutable := false, IsLocked := false, SignalType := "Latency",
    Compliance := ⟨"Rolling", 99, "", "7d"⟩,
    Indicator := ⟨"Threshold", "Metrics", [⟨"Threshold", [queryA]⟩]⟩,
    Service := "", Application := "" }

/-- A gateway over a server that holds a list of SLO ids: the root folder is
`"root-1"`, creation yields the id `"slo-1"`, reading an id gives a not-found
answer (nil, nil), update succeeds, and deleting an id the server does not hold
fails with a not-found error. -/
def listClient : Client (List String) where
  GetSLOLibraryFolder := fun _ s => (.ok (some ⟨"root-1"⟩), s)
  CreateSLO := fun _ _ s => (.ok "slo-1", "slo-1" :: s)
  SLORead := fun _ s => (.ok none, s)
  UpdateSLO := fun _ s => (none, s)
  DeleteSLO := fun id s =>
    if s.contains id then (none, s.filter (fun x => !(x == id))) else (some "404 Not Found", s)

/-- A gateway every call of which fails with the given error. -/
def failingClient (e : GoError) : Client Unit where
  GetSLOLibraryFolder := fun _ s => (.error e, s)
  CreateSLO := fun _ _ s => (.error e, s)
  SLORead := fun _ s => (.error e, s)
  UpdateSLO := fun _ s => (some e, s)
  DeleteSLO := fun _ s => (some e, s)

/-- A gateway whose read returns the given SLO and whose other calls succeed. -/
def servingClient (slo : SLOLibrarySLO) : Client Unit where
  GetSLOLibraryFolder := fun _ s => (.ok (some ⟨"root-1"⟩), s)
  CreateSLO := fun _ _ s => (.ok slo.ID, s)
  SLORead := fun _ s => (.ok (some slo), s)
  UpdateSLO := fun _ s => (none, s)
  DeleteSLO := fun _ s => (none, s)

/-- A gateway that finds the root folder `root-1` and answers CreateSLO and UpdateSLO
with the given error (a version conflict, say). -/
def rejectingClient (e : GoError) : Client Unit where
  GetSLOLibraryFolder := fun _ s => (.ok (some ⟨"root-1"⟩), s)
  CreateSLO := fun _ _ s => (.error e, s)
  SLORead := fun _ s => (.ok none, s)
  UpdateSLO := fun _ s => (some e, s)
  DeleteSLO := fun _ s => (none, s)

/-- The SLO `abc` as the server holds it after a change made outside Terraform. -/
def serverSLO : SLOLibrarySLO :=
  { decodedSLO "abc" "folder-7" with
    Name := "checkout-latency-v2", Version := 3, CreatedBy := "0000000000000001",
    IsMutable := true, SignalType := "Error" }

/-- A handle whose only field is `queries`, holding the given raw groups. -/
def queriesHandle (groups : List Value) : ResourceData :=
  ⟨"", [("queries", .list groups)], acceptAll⟩

/-- A raw query group of type `Threshold` holding the given queries. -/
def rawGroup (qs : List SLIQuery) : Value :=
  .map [("query_group_type", .str "Threshold"), ("query_group", .list (qs.map .query))]

/-- A handle whose only field is `compliance`, holding the given mapping. -/
def complianceHandle (kvs : List (String × Value)) : ResourceData :=
  ⟨"", [("compliance", .map kvs)], acceptAll⟩

end Sumologic

/-! ## Lemmas on decoding and on the call log -/

namespace Sumologic

/-- A successful `resourceToSLO` took the id from the handle and the parent id
from the field `parent_id`. -/
theorem resourceToSLO_ok {d : ResourceData} {slo : SLOLibrarySLO}
    (h : resourceToSLO d = .ok slo) :
    slo.ID = d.Id ∧ d.Get "parent_id" = .str slo.ParentID := by
  unfold resourceToSLO at h
  simp only [bind, Except.bind, pure, Except.pure] at h
  repeat (split at h; · cases h)
  cases h
  refine ⟨rfl, ?_⟩
  generalize d.Get "parent_id" = v at *
  cases v <;> simp_all [asString]

/-- The read callback makes exactly one gateway call, the read of the handle's id. -/
theorem read_calls {σ : Type} (c : Client σ) (d : ResourceData) (s : σ) :
    (resourceSumologicSLORead c d s).calls = [.sloRead d.Id] := by
  unfold resourceSumologicSLORead
  split <;> rfl

theorem createAndRead_error {σ : Type} (c : Client σ) (d : ResourceData) (s s1 : σ)
    (pre : List Call) (slo : SLOLibrarySLO) (e : GoError)
    (h : c.CreateSLO slo [("parentId", slo.ParentID)] s = (.error e, s1)) :
    createAndRead c d s pre slo
      = ⟨d, s1, pre ++ [.createSLO slo [("parentId", slo.ParentID)]], .returned (some e)⟩ := by
  simp [createAndRead, h]

theorem createAndRead_ok {σ : Type} (c : Client σ) (d : ResourceData) (s s1 : σ)
    (pre : List Call) (slo : SLOLibrarySLO) (newId : String)
    (h : c.CreateSLO slo [("parentId", slo.ParentID)] s = (.ok newId, s1)) :
    createAndRead c d s pre slo
      = (resourceSumologicSLORead c (d.SetId newId) s1).after
          (pre ++ [.createSLO slo [("parentId", slo.ParentID)]]) := by
  simp [createAndRead, h]

theorem create_existing {σ : Type} (c : Client σ) (d : ResourceData) (s : σ)
    (hid : d.Id ≠ "") :
    resourceSumologicSLOCreate c d s = resourceSumologicSLORead c d s := by
  simp [resourceSumologicSLOCreate, hid]

theorem create_panic {σ : Type} (c : Client σ) (d : ResourceData) (s : σ) (p : Panic)
    (hid : d.Id = "") (hdec : resourceToSLO d = .error p) :
    resourceSumologicSLOCreate c d s = ⟨d, s, [], .panicked p⟩ := by
  simp [resourceSumologicSLOCreate, hid, hdec]

theorem create_with_parent {σ : Type} (c : Client σ) (d : ResourceData) (s : σ)
    (slo : SLOLibrarySLO) (hid : d.Id = "") (hdec : resourceToSLO d = .ok slo)
    (hp : slo.ParentID ≠ "") :
    resourceSumologicSLOCreate c d s = createAndRead c d s [] (createDoc slo) := by
  simp [resourceSumologicSLOCreate, hid, hdec, hp, createDoc]

theorem create_lookup_error {σ : Type} (c : Client σ) (d : ResourceData) (s s1 : σ)
    (slo : SLOLibrarySLO) (e : GoError) (hid : d.Id = "") (hdec : resourceToSLO d = .ok slo)
    (hp : slo.ParentID = "") (hlk : c.GetSLOLibraryFolder "root" s = (.error e, s1)) :
    resourceSumologicSLOCreate c d s
      = ⟨d, s1, [.getSLOLibraryFolder "root"], .returned (some e)⟩ := by
  simp [resourceSumologicSLOCreate, hid, hdec, hp, hlk]

theorem create_lookup_nil {σ : Type} (c : Client σ) (d : ResourceData) (s s1 : σ)
    (slo : SLOLibrarySLO) (hid : d.Id = "") (hdec : resourceToSLO d = .ok slo)
    (hp : slo.ParentID = "") (hlk : c.GetSLOLibraryFolder "root" s = (.ok none, s1)) :
    resourceSumologicSLOCreate c d s
      = ⟨d, s1, [.getSLOLibraryFolder "root"], .panicked .nilDereference⟩ := by
  simp [resourceSumologicSLOCreate, hid, hdec, hp, hlk]

theorem create_lookup_ok {σ : Type} (c : Client σ) (d : ResourceData) (s s1 : σ)
    (slo : SLOLibrarySLO) (F : SLOLibraryFolder) (hid : d.Id = "")
    (hdec : resourceToSLO d = .ok slo) (hp : slo.ParentID = "")
    (hlk : c.GetSLOLibraryFolder "root" s = (.ok (some F), s1)) :
    resourceSumologicSLOCreate c d s
      = createAndRead c d s1 [.getSLOLibraryFolder "root"]
          { createDoc slo with ParentID := F.ID } := by
  simp [resourceSumologicSLOCreate, hid, hdec, hp, hlk, createDoc]

theorem update_panic {σ : Type} (c : Client σ) (d : ResourceData) (s : σ) (p : Panic)
    (hdec : resourceToSLO d = .error p) :
    resourceSumologicSLOUpdate c d s = ⟨d, s, [], .panicked p⟩ := by
  simp [resourceSumologicSLOUpdate, hdec]

theorem update_error {σ : Type} (c : Client σ) (d : ResourceData) (s s1 : σ)
    (slo : SLOLibrarySLO) (e : GoError) (hdec : resourceToSLO d = .ok slo)
    (hu : c.UpdateSLO (updateDoc slo) s = (some e, s1)) :
    resourceSumologicSLOUpdate c d s
      = ⟨d, s1, [.updateSLO (updateDoc slo)], .returned (some e)⟩ := by
  simp only [updateDoc] at hu
  simp [resourceSumologicSLOUpdate, hdec, hu, updateDoc]

theorem update_ok {σ : Type} (c : Client σ) (d : ResourceData) (s s1 : σ)
    (slo : SLOLibrarySLO) (hdec : resourceToSLO d = .ok slo)
    (hu : c.UpdateSLO (updateDoc slo) s = (none, s1)) :
    resourceSumologicSLOUpdate c d s
      = (resourceSumologicSLORead c d s1).after [.updateSLO (updateDoc slo)] := by
  simp only [updateDoc] at hu
  simp [resourceSumologicSLOUpdate, hdec, hu, updateDoc]

/-- The call log of the tail of Create: the calls before it, the CreateSLO call,
and the read that follows a successful CreateSLO. -/
theorem createAndRead_calls {σ : Type} (c : Client σ) (d : ResourceData) (s : σ)
    (pre : List Call) (slo : SLOLibrarySLO) :
    ∃ rest, (createAndRead c d s pre slo).calls
        = pre ++ .createSLO slo [("parentId", slo.ParentID)] :: rest
      ∧ ∀ x ∈ rest, ∃ id, x = .sloRead id := by
  rcases h : c.CreateSLO slo [("parentId", slo.ParentID)] s with ⟨e | newId, s1⟩
  · rw [createAndRead_error c d s s1 pre slo e h]
    exact ⟨[], by simp, by simp⟩
  · rw [createAndRead_ok c d s s1 pre slo newId h]
    refine ⟨[.sloRead newId], ?_, by simp⟩
    simp [Run.after, read_calls, ResourceData.SetId, ResourceData.Id]

/-- Every CreateSLO call in the log of the tail of Create carries the document the
tail was given. -/
theorem createAndRead_sent {σ : Type} (c : Client σ) (d : ResourceData) (s : σ)
    (pre : List Call) (slo x : SLOLibrarySLO) (pm : List (String × String))
    (hpre : Call.createSLO x pm ∉ pre)
    (hmem : Call.createSLO x pm ∈ (createAndRead c d s pre slo).calls) :
    x = slo ∧ pm = [("parentId", slo.ParentID)] := by
  obtain ⟨rest, hc, hr⟩ := createAndRead_calls c d s pre slo
  rw [hc] at hmem
  simp only [List.mem_append, List.mem_cons] at hmem
  rcases hmem with h | h | h
  · exact absurd h hpre
  · cases h; exact ⟨rfl, rfl⟩
  · obtain ⟨id, hid⟩ := hr _ h
    cases hid

/-- A Go map yields the nil interface for a key it does not hold. -/
theorem mapIndex_absent (kvs : List (String × Value)) (k : String)
    (h : ∀ kv ∈ kvs, kv.1 ≠ k) : mapIndex kvs k = .nil := by
  have hf : kvs.find? (fun kv => kv.1 == k) = none := by
    rw [List.find?_eq_none]
    intro kv hkv
    simpa using h kv hkv
  simp [mapIndex, hf]

/-- On every handle whose `compliance` mapping has only keys the schema declares,
`getSLOCompliance` panics on its first assertion. -/
theorem getSLOCompliance_schema_shape (d : ResourceData) (kvs : List (String × Value))
    (hget : d.Get "compliance" = .map kvs)
    (hkeys : ∀ kv ∈ kvs, kv.1 ∈ complianceSchemaKeys) :
    getSLOCompliance d = .error (.typeAssertion "string") := by
  have habs : mapIndex kvs "compliance_type" = .nil := by
    apply mapIndex_absent
    intro kv hkv heq
    have := hkeys kv hkv
    rw [heq] at this
    revert this
    decide
  simp [getSLOCompliance, hget, asMap, habs, asString, bind, Except.bind]

/-- On every handle whose `compliance` mapping has only keys the schema declares,
`resourceToSLO` panics. -/
theorem resourceToSLO_schema_shape (d : ResourceData) (kvs : List (String × Value))
    (hget : d.Get "compliance" = .map kvs)
    (hkeys : ∀ kv ∈ kvs, kv.1 ∈ complianceSchemaKeys) :
    resourceToSLO d = .error (.typeAssertion "string") := by
  simp [resourceToSLO, getSLOCompliance_schema_shape d kvs hget hkeys, bind, Except.bind]

/-! ## Kind tagging (C1) -/

/-- C1: whatever the handle holds for `type`, every SLO document that
`resourceSumologicSLOCreate` passes to CreateSLO has Type `SlosLibrarySlo` and every
document that `resourceSumologicSLOUpdate` passes to UpdateSLO has Type
`SlosLibrarySloUpdate`; and the calls are made: Update sends the decoded document,
retagged, whenever the handle decodes, and so does Create for a handle with an empty id
and a parent id. -/
theorem kind_tagging {σ : Type} (c : Client σ) (d : ResourceData) (s : σ) :
    (∀ slo paramMap, Call.createSLO slo paramMap ∈ (resourceSumologicSLOCreate c d s).calls →
        slo.Type_ = "SlosLibrarySlo") ∧
    (∀ slo, Call.updateSLO slo ∈ (resourceSumologicSLOUpdate c d s).calls →
        slo.Type_ = "SlosLibrarySloUpdate") ∧
    (∀ slo, resourceToSLO d = .ok slo →
        Call.updateSLO { slo with Type_ := "SlosLibrarySloUpdate" }
          ∈ (resourceSumologicSLOUpdate c d s).calls) ∧
    (∀ slo, d.Id = "" → resourceToSLO d = .ok slo → slo.ParentID ≠ "" →
        Call.createSLO { slo with Type_ := "SlosLibrarySlo" } [("parentId", slo.ParentID)]
          ∈ (resourceSumologicSLOCreate c d s).calls) := by
  refine ⟨?_, ?_, ?_, ?_⟩
  · intro x pm hmem
    by_cases hid : d.Id = ""
    · rcases hdec : resourceToSLO d with p | slo
      · rw [create_panic c d s p hid hdec] at hmem
        simp at hmem
      · by_cases hp : slo.ParentID = ""
        · rcases hlk : c.GetSLOLibraryFolder "root" s with ⟨e | _ | F, s1⟩
          · rw [create_lookup_error c d s s1 slo e hid hdec hp hlk] at hmem
            simp at hmem
          · rw [create_lookup_nil c d s s1 slo hid hdec hp hlk] at hmem
            simp at hmem
          · rw [create_lookup_ok c d s s1 slo F hid hdec hp hlk] at hmem
            have := (createAndRead_sent c d s1 _ _ x pm (by simp) hmem).1
            rw [this]; rfl
        · rw [create_with_parent c d s slo hid hdec hp] at hmem
          have := (createAndRead_sent c d s _ _ x pm (by simp) hmem).1
          rw [this]; rfl
    · rw [create_existing c d s hid, read_calls] at hmem
      simp at hmem
  · intro x hmem
    rcases hdec : resourceToSLO d with p | slo
    · rw [update_panic c d s p hdec] at hmem
      simp at hmem
    · rcases hu : c.UpdateSLO (updateDoc slo) s with ⟨_ | e, s1⟩
      · rw [update_ok c d s s1 slo hdec hu] at hmem
        simp only [Run.after, read_calls, List.singleton_append, List.mem_cons] at hmem
        rcases hmem with h | h
        · cases h; rfl
        · simp at h
      · rw [update_error c d s s1 slo e hdec hu] at hmem
        simp only [List.mem_singleton] at hmem
        cases hmem; rfl
  · intro slo hdec
    rcases hu : c.UpdateSLO (updateDoc slo) s with ⟨_ | e, s1⟩
    · rw [update_ok c d s s1 slo hdec hu]
      simp [Run.after, updateDoc]
    · rw [update_error c d s s1 slo e hdec hu]
      simp [updateDoc]
  · intro slo hid hdec hp
    rw [create_with_parent c d s slo hid hdec hp]
    obtain ⟨rest, hc, _⟩ := createAndRead_calls c d s [] (createDoc slo)
    rw [hc]
    simp [createDoc]

/-- C1 at a concrete handle that holds `type = "SlosLibraryFolder"`: the documents sent
by Create and by Update carry the two tags. -/
theorem kind_tagging_witness :
    (Call.createSLO { decodedSLO "" "folder-7" with Type_ := "SlosLibrarySlo" }
        [("parentId", "folder-7")]
      ∈ (resourceSumologicSLOCreate listClient (decodableHandle "" "folder-7") []).calls) ∧
    (Call.updateSLO { decodedSLO "abc" "folder-7" with Type_ := "SlosLibrarySloUpdate" }
      ∈ (resourceSumologicSLOUpdate listClient (decodableHandle "abc" "folder-7") []).calls) ∧
    (decodableHandle "abc" "folder-7").Get "type" = .str "SlosLibraryFolder" :=
  ⟨(kind_tagging listClient (decodableHandle "" "folder-7") []).2.2.2 _ rfl rfl (by decide),
   (kind_tagging listClient (decodableHandle "abc" "folder-7") []).2.2.1 _ rfl,
   rfl⟩

/-! ## Create on a handle of the schema (C2) -/

/-- C2, the code at the failing input: the handle of scenario S1 has an empty id and an
empty `parent_id`, yet Create looks up no folder and calls no CreateSLO: `resourceToSLO`
(line 251) panics first, the `compliance` mapping of the schema having no key
`compliance_type`. The same holds for every gateway and every handle with an empty id
whose `compliance` mapping has only keys of the schema. -/
theorem create_panics_before_lookup :
    handleS1.Id = "" ∧ handleS1.Get "parent_id" = .str "" ∧
    (∀ kv ∈ schemaFieldsS1, kv.1 ∈ schemaKeys) ∧
    (resourceSumologicSLOCreate listClient handleS1 []).calls.count
        (.getSLOLibraryFolder "root") ≠ 1 ∧
    (resourceSumologicSLOCreate listClient handleS1 []).calls = [] ∧
    (resourceSumologicSLOCreate listClient handleS1 []).result
      = .panicked (.typeAssertion "string") ∧
    (∀ (σ : Type) (c : Client σ) (d : ResourceData) (s : σ) (kvs : List (String × Value)),
      d.Id = "" → d.Get "compliance" = .map kvs →
      (∀ kv ∈ kvs, kv.1 ∈ complianceSchemaKeys) →
      resourceSumologicSLOCreate c d s = ⟨d, s, [], .panicked (.typeAssertion "string")⟩) := by
  refine ⟨rfl, rfl, by decide, ?_, rfl, rfl, ?_⟩
  · have h : (resourceSumologicSLOCreate listClient handleS1 []).calls = [] := rfl
    rw [h]
    decide
  · intro σ c d s kvs hid hget hkeys
    exact create_panic c d s _ hid (resourceToSLO_schema_shape d kvs hget hkeys)

/-- The lines after the decoding (253-264) do default the parent: on a handle with an
empty id and an empty `parent_id` that `resourceToSLO` decodes, Create looks up the
folder `root` exactly once, as its first gateway call, and when the lookup yields the
folder `F` the next call is CreateSLO with the decoded document carrying ParentID `F.ID`
and the parameter map `parentId ↦ F.ID`. -/
theorem create_defaults_parent {σ : Type} (c : Client σ) (d : ResourceData) (s : σ)
    (slo : SLOLibrarySLO) (hid : d.Id = "") (hparent : d.Get "parent_id" = .str "")
    (hdec : resourceToSLO d = .ok slo) :
    (resourceSumologicSLOCreate c d s).calls.count (.getSLOLibraryFolder "root") = 1 ∧
    (resourceSumologicSLOCreate c d s).calls.head? = some (.getSLOLibraryFolder "root") ∧
    ∀ F s1, c.GetSLOLibraryFolder "root" s = (.ok (some F), s1) →
      (resourceSumologicSLOCreate c d s).calls.get? 1
        = some (.createSLO { createDoc slo with ParentID := F.ID } [("parentId", F.ID)]) := by
  have hp : slo.ParentID = "" := by
    have h := (resourceToSLO_ok hdec).2
    rw [hparent] at h
    exact (Value.str.inj h).symm
  rcases hlk : c.GetSLOLibraryFolder "root" s with ⟨e | _ | F, s1⟩
  · rw [create_lookup_error c d s s1 slo e hid hdec hp hlk]
    refine ⟨by simp, rfl, ?_⟩
    intro F s2 h; cases h
  · rw [create_lookup_nil c d s s1 slo hid hdec hp hlk]
    refine ⟨by simp, rfl, ?_⟩
    intro F s2 h; cases h
  · rw [create_lookup_ok c d s s1 slo F hid hdec hp hlk]
    obtain ⟨rest, hc, hr⟩ := createAndRead_calls c d s1 [.getSLOLibraryFolder "root"]
      { createDoc slo with ParentID := F.ID }
    rw [hc]
    refine ⟨?_, rfl, ?_⟩
    · have hrest : rest.count (.getSLOLibraryFolder "root") = 0 := by
        rw [List.count_eq_zero]
        intro hm
        obtain ⟨id, h⟩ := hr _ hm
        cases h
      simp [List.count_cons, hrest]
    · intro F2 s2 h
      cases h
      rfl

/-- The parent defaulting at a handle holding the keys the decoder reads, with empty id
and parent id: one lookup, then CreateSLO with the id of the root folder. -/
theorem create_defaults_parent_witness :
    (resourceSumologicSLOCreate listClient (decodableHandle "" "") []).calls.count
        (.getSLOLibraryFolder "root") = 1 ∧
    (resourceSumologicSLOCreate listClient (decodableHandle "" "") []).calls.get? 1
      = some (.createSLO { createDoc (decodedSLO "" "") with ParentID := "root-1" }
          [("parentId", "root-1")]) :=
  have h := create_defaults_parent listClient (decodableHandle "" "") [] (decodedSLO "" "")
    rfl rfl rfl
  ⟨h.1, h.2.2 ⟨"root-1"⟩ [] rfl⟩

/-! ## Drift on read (C3) -/

/-- C3: when the gateway read answers with no SLO and no error, Read makes that one
call, sets the handle's id to the empty string, leaves the fields as they were, and
returns success. -/
theorem read_not_found_clears_id {σ : Type} (c : Client σ) (d : ResourceData) (s s1 : σ)
    (h : c.SLORead d.Id s = (.ok none, s1)) :
    (resourceSumologicSLORead c d s).result = .returned none ∧
    (resourceSumologicSLORead c d s).d.Id = "" ∧
    (resourceSumologicSLORead c d s).d.fields = d.fields ∧
    (resourceSumologicSLORead c d s).calls = [.sloRead d.Id] ∧
    (resourceSumologicSLORead c d s).server = s1 := by
  have e : resourceSumologicSLORead c d s
      = ⟨d.SetId "", s1, [.sloRead d.Id], .returned none⟩ := by
    simp only [resourceSumologicSLORead, h]
  rw [e]
  exact ⟨rfl, rfl, rfl, rfl, rfl⟩

/-- C3 at scenario S4: the handle has id `abc` and the server has no such SLO. -/
theorem read_not_found_clears_id_witness :
    (decodableHandle "abc" "").Id = "abc" ∧
    (resourceSumologicSLORead listClient (decodableHandle "abc" "") []).result
      = .returned none ∧
    (resourceSumologicSLORead listClient (decodableHandle "abc" "") []).d.Id = "" :=
  have h := read_not_found_clears_id listClient (decodableHandle "abc" "") [] [] rfl
  ⟨rfl, h.1, h.2.1⟩

/-! ## Delete on a handle of the schema (C4) -/

theorem delete_panic {σ : Type} (c : Client σ) (d : ResourceData) (s : σ) (p : Panic)
    (hdec : resourceToSLO d = .error p) :
    resourceSumologicSLODelete c d s = ⟨d, s, [], .panicked p⟩ := by
  simp [resourceSumologicSLODelete, hdec]

/-- C4, the code at the failing input: the handle of scenario S1 with the id `abc`, and
a server that no longer holds `abc`, so that DeleteSLO would report NotFound. Delete
does not return success: `resourceToSLO` (line 395) panics before DeleteSLO is called,
the `compliance` mapping of the schema having no key `compliance_type`. The same holds
for every gateway and every handle whose `compliance` mapping has only keys of the
schema, so neither of two successive Deletes succeeds. -/
theorem delete_panics_before_gateway :
    handleS1Created.Id = "abc" ∧
    (listClient.DeleteSLO "abc" []).1 = some "404 Not Found" ∧
    (resourceSumologicSLODelete listClient handleS1Created []).calls = [] ∧
    (resourceSumologicSLODelete listClient handleS1Created []).result
      = .panicked (.typeAssertion "string") ∧
    (resourceSumologicSLODelete listClient handleS1Created []).result ≠ .returned none ∧
    (resourceSumologicSLODelete listClient handleS1Created ["abc"]).result
      ≠ .returned none ∧
    (∀ (σ : Type) (c : Client σ) (d : ResourceData) (s : σ) (kvs : List (String × Value)),
      d.Get "compliance" = .map kvs → (∀ kv ∈ kvs, kv.1 ∈ complianceSchemaKeys) →
      resourceSumologicSLODelete c d s = ⟨d, s, [], .panicked (.typeAssertion "string")⟩) := by
  have h1 : (resourceSumologicSLODelete listClient handleS1Created []).result
      = .panicked (.typeAssertion "string") := rfl
  have h2 : (resourceSumologicSLODelete listClient handleS1Created ["abc"]).result
      = .panicked (.typeAssertion "string") := rfl
  refine ⟨rfl, rfl, rfl, rfl, ?_, ?_, ?_⟩
  · rw [h1]; decide
  · rw [h2]; decide
  · intro σ c d s kvs hget hkeys
    exact delete_panic c d s _ (resourceToSLO_schema_shape d kvs hget hkeys)

/-- The lines after the decoding (396-400): on a handle that `resourceToSLO` decodes,
Delete calls DeleteSLO once, with the id of the handle, and returns exactly what
DeleteSLO returned; the handle is left as it was. -/
theorem delete_returns_gateway_result {σ : Type} (c : Client σ) (d : ResourceData) (s : σ)
    (slo : SLOLibrarySLO) (hdec : resourceToSLO d = .ok slo) :
    (resourceSumologicSLODelete c d s).result = .returned (c.DeleteSLO d.Id s).1 ∧
    (resourceSumologicSLODelete c d s).calls = [.deleteSLO d.Id] ∧
    (resourceSumologicSLODelete c d s).server = (c.DeleteSLO d.Id s).2 ∧
    (resourceSumologicSLODelete c d s).d = d ∧
    ((resourceSumologicSLODelete c d s).result = .returned none ↔
      (c.DeleteSLO d.Id s).1 = none) := by
  have hID : slo.ID = d.Id := (resourceToSLO_ok hdec).1
  rcases hdel : c.DeleteSLO d.Id s with ⟨_ | e, s1⟩
  · have hdel2 : c.DeleteSLO slo.ID s = (none, s1) := by rw [hID]; exact hdel
    have e : resourceSumologicSLODelete c d s
        = ⟨d, s1, [.deleteSLO slo.ID], .returned none⟩ := by
      simp only [resourceSumologicSLODelete, hdec, hdel2]
    rw [e, hID]
    exact ⟨rfl, rfl, rfl, rfl, by simp⟩
  · have hdel2 : c.DeleteSLO slo.ID s = (some e, s1) := by rw [hID]; exact hdel
    have e : resourceSumologicSLODelete c d s
        = ⟨d, s1, [.deleteSLO slo.ID], .returned (some e)⟩ := by
      simp only [resourceSumologicSLODelete, hdec, hdel2]
    rw [e, hID]
    exact ⟨rfl, rfl, rfl, rfl, by simp⟩

/-- The lines after the decoding at a handle holding the keys the decoder reads: Delete
returns what the gateway returned. -/
theorem delete_returns_gateway_result_witness :
    (resourceSumologicSLODelete listClient (decodableHandle "abc" "f") ["abc"]).result
      = .returned (listClient.DeleteSLO "abc" ["abc"]).1 ∧
    (resourceSumologicSLODelete listClient (decodableHandle "abc" "f") []).calls
      = [.deleteSLO "abc"] :=
  ⟨(delete_returns_gateway_result listClient (decodableHandle "abc" "f") ["abc"]
      (decodedSLO "abc" "f") rfl).1,
   (delete_returns_gateway_result listClient (decodableHandle "abc" "f") []
      (decodedSLO "abc" "f") rfl).2.1⟩

/-! ## Error propagation (C8) -/

/-- C8: on a handle that decodes to `slo`, a failure `e` of the root-folder lookup or of
CreateSLO during Create, or of UpdateSLO during Update, ends the callback at once: it
returns exactly `e`, the call log ends with the failed call, and the handle is the one
it was given. -/
theorem gateway_error_verbatim {σ : Type} (c : Client σ) (d : ResourceData) (s : σ)
    (slo : SLOLibrarySLO) (e : GoError) (hdec : resourceToSLO d = .ok slo) :
    (d.Id = "" → slo.ParentID = "" →
      ∀ s1, c.GetSLOLibraryFolder "root" s = (.error e, s1) →
        resourceSumologicSLOCreate c d s
          = ⟨d, s1, [.getSLOLibraryFolder "root"], .returned (some e)⟩) ∧
    (d.Id = "" → slo.ParentID ≠ "" →
      ∀ s1, c.CreateSLO (createDoc slo) [("parentId", slo.ParentID)] s = (.error e, s1) →
        resourceSumologicSLOCreate c d s
          = ⟨d, s1, [.createSLO (createDoc slo) [("parentId", slo.ParentID)]],
              .returned (some e)⟩) ∧
    (d.Id = "" → slo.ParentID = "" →
      ∀ F s1 s2, c.GetSLOLibraryFolder "root" s = (.ok (some F), s1) →
        c.CreateSLO { createDoc slo with ParentID := F.ID } [("parentId", F.ID)] s1
            = (.error e, s2) →
        resourceSumologicSLOCreate c d s
          = ⟨d, s2, [.getSLOLibraryFolder "root",
                .createSLO { createDoc slo with ParentID := F.ID } [("parentId", F.ID)]],
              .returned (some e)⟩) ∧
    (∀ s1, c.UpdateSLO (updateDoc slo) s = (some e, s1) →
        resourceSumologicSLOUpdate c d s
          = ⟨d, s1, [.updateSLO (updateDoc slo)], .returned (some e)⟩) := by
  refine ⟨?_, ?_, ?_, ?_⟩
  · intro hid hp s1 hlk
    exact create_lookup_error c d s s1 slo e hid hdec hp hlk
  · intro hid hp s1 hcr
    rw [create_with_parent c d s slo hid hdec hp]
    exact createAndRead_error c d s s1 [] (createDoc slo) e hcr
  · intro hid hp F s1 s2 hlk hcr
    rw [create_lookup_ok c d s s1 slo F hid hdec hp hlk]
    exact createAndRead_error c d s1 s2 [.getSLOLibraryFolder "root"]
      { createDoc slo with ParentID := F.ID } e hcr
  · intro s1 hu
    exact update_error c d s s1 slo e hdec hu

/-- C8 at concrete runs: a failed lookup, a CreateSLO rejected without and with a lookup
before it, and an UpdateSLO answered with a version conflict (scenario S5). -/
theorem gateway_error_verbatim_witness :
    (resourceSumologicSLOCreate (failingClient "503 Service Unavailable")
        (decodableHandle "" "") ()).result = .returned (some "503 Service Unavailable") ∧
    (resourceSumologicSLOCreate (rejectingClient "400 Bad Request")
        (decodableHandle "" "folder-7") ()).calls
      = [.createSLO (createDoc (decodedSLO "" "folder-7")) [("parentId", "folder-7")]] ∧
    (resourceSumologicSLOCreate (rejectingClient "400 Bad Request")
        (decodableHandle "" "") ()).result = .returned (some "400 Bad Request") ∧
    resourceSumologicSLOUpdate (rejectingClient "409 Conflict") (decodableHandle "abc" "f") ()
      = ⟨decodableHandle "abc" "f", (), [.updateSLO (updateDoc (decodedSLO "abc" "f"))],
          .returned (some "409 Conflict")⟩ :=
  ⟨congrArg Run.result
      ((gateway_error_verbatim (failingClient "503 Service Unavailable")
        (decodableHandle "" "") () (decodedSLO "" "") "503 Service Unavailable" rfl).1
          rfl rfl () rfl),
   congrArg Run.calls
      ((gateway_error_verbatim (rejectingClient "400 Bad Request")
        (decodableHandle "" "folder-7") () (decodedSLO "" "folder-7") "400 Bad Request" rfl).2.1
          rfl (by decide) () rfl),
   congrArg Run.result
      ((gateway_error_verbatim (rejectingClient "400 Bad Request")
        (decodableHandle "" "") () (decodedSLO "" "") "400 Bad Request" rfl).2.2.1
          rfl rfl ⟨"root-1"⟩ () () rfl rfl),
   (gateway_error_verbatim (rejectingClient "409 Conflict")
        (decodableHandle "abc" "f") () (decodedSLO "abc" "f") "409 Conflict" rfl).2.2.2
          () rfl⟩

/-! ## Write-back (C6) and the round trip (C5) -/

/-- A write to one key leaves what the handle holds under any other key. -/
theorem get_set_of_ne (d : ResourceData) (key k : String) (v : Value) (hne : key ≠ k) :
    (d.Set key v).1.Get k = d.Get k := by
  unfold ResourceData.Set
  split
  · rfl
  · have hk : (key == k) = false := by simpa using hne
    simp only [ResourceData.Get, mapIndex, List.find?_cons, hk, List.find?_filter]
    have hfun : (fun a : String × Value => decide ((!(a.1 == key)) = true ∧ (a.1 == k) = true))
        = (fun kv : String × Value => kv.1 == k) := by
      funext kv
      by_cases h : kv.1 = k
      · have : (kv.1 == key) = false := by
          simp only [beq_eq_false_iff_ne, ne_eq]
          intro h2; exact hne (h2.symm.trans h)
        simp [h, Ne.symm hne]
      · have : (kv.1 == k) = false := by simpa using h
        simp [this]
    rw [hfun]

/-- A write keeps the host's verdicts. -/
theorem set_rejects (d : ResourceData) (key : String) (v : Value) :
    (d.Set key v).1.rejects = d.rejects := by
  unfold ResourceData.Set
  split <;> rfl

/-- A write keeps the id. -/
theorem set_id (d : ResourceData) (key : String) (v : Value) :
    (d.Set key v).1.Id = d.Id := by
  unfold ResourceData.Set
  split <;> rfl

/-- An accepted write is what the handle then holds under that key. -/
theorem get_set_self (d : ResourceData) (key : String) (v : Value)
    (h : d.rejects key v = none) : (d.Set key v).1.Get key = v := by
  simp [ResourceData.Set, h, ResourceData.Get, mapIndex]

/-- What the handle holds after a write. -/
theorem get_set (d : ResourceData) (key k : String) (v : Value) :
    (d.Set key v).1.Get k = if key = k ∧ d.rejects key v = none then v else d.Get k := by
  split
  · rename_i e; obtain ⟨e1, e2⟩ := e; subst e1; exact get_set_self d key v e2
  · rename_i e
    by_cases e1 : key = k
    · have hr : d.rejects key v ≠ none := fun h2 => e ⟨e1, h2⟩
      unfold ResourceData.Set
      split
      · rfl
      · rename_i h3; exact absurd h3 hr
    · exact get_set_of_ne d key k v e1

/-- On a host that accepts every write, a write returns no error. -/
theorem set_snd (d : ResourceData) (key : String) (v : Value)
    (h : ∀ k w, d.rejects k w = none) : (d.Set key v) = ((d.Set key v).1, none) := by
  simp [ResourceData.Set, h]

/-- On a host that accepts every write, the write-back succeeds, keeps the id, and
leaves in the handle the value of the SLO for each of the sixteen fields it writes. -/
theorem writeBack_accepted (d : ResourceData) (slo : SLOLibrarySLO)
    (h : ∀ k w, d.rejects k w = none) :
    (writeBack d slo).2 = none ∧
    (writeBack d slo).1.Id = d.Id ∧
    (writeBack d slo).1.Get "name" = .str slo.Name ∧
    (writeBack d slo).1.Get "description" = .str slo.Description ∧
    (writeBack d slo).1.Get "version" = .int slo.Version ∧
    (writeBack d slo).1.Get "created_at" = .str slo.CreatedAt ∧
    (writeBack d slo).1.Get "created_by" = .str slo.CreatedBy ∧
    (writeBack d slo).1.Get "modified_at" = .str slo.ModifiedAt ∧
    (writeBack d slo).1.Get "modified_by" = .str slo.ModifiedBy ∧
    (writeBack d slo).1.Get "parent_id" = .str slo.ParentID ∧
    (writeBack d slo).1.Get "content_type" = .str "slo" ∧
    (writeBack d slo).1.Get "is_mutable" = .bool slo.IsMutable ∧
    (writeBack d slo).1.Get "is_locked" = .bool slo.IsLocked ∧
    (writeBack d slo).1.Get "is_system" = .bool slo.IsSystem ∧
    (writeBack d slo).1.Get "service" = .str slo.Service ∧
    (writeBack d slo).1.Get "application" = .str slo.Application ∧
    (writeBack d slo).1.Get "compliance" = .compliance slo.Compliance ∧
    (writeBack d slo).1.Get "indicator" = .indicator slo.Indicator := by
  have hs : ∀ k w, (setScalars d slo).rejects k w = none := by
    simp only [setScalars, set_rejects]; exact h
  have hc : ∀ k w, ((setScalars d slo).Set "compliance"
      (.compliance slo.Compliance)).1.rejects k w = none := by
    rw [set_rejects]; exact hs
  have e : writeBack d slo
      = ((((setScalars d slo).Set "compliance" (.compliance slo.Compliance)).1.Set
            "indicator" (.indicator slo.Indicator)).1, none) := by
    unfold writeBack
    dsimp only
    rw [set_snd _ _ _ hs]
    dsimp only
    rw [set_snd _ "indicator" _ hc]
  rw [e]
  dsimp only
  refine ⟨rfl, ?_, ?_⟩
  · simp only [set_id, setScalars]
  · simp [setScalars, get_set, set_rejects, h]

/-- The write-back never touches the field `signal_type`. -/
theorem writeBack_signal_type (d : ResourceData) (slo : SLOLibrarySLO) :
    (writeBack d slo).1.Get "signal_type" = d.Get "signal_type" := by
  have hs : (setScalars d slo).Get "signal_type" = d.Get "signal_type" := by
    simp only [setScalars]
    repeat rw [get_set_of_ne _ _ _ _ (by decide)]
  unfold writeBack
  dsimp only
  split
  · rename_i d1 err h1
    have : d1 = ((setScalars d slo).Set "compliance" (.compliance slo.Compliance)).1 := by
      rw [h1]
    rw [this, get_set_of_ne _ _ _ _ (by decide), hs]
  · rename_i d1 h1
    have e1 : d1 = ((setScalars d slo).Set "compliance" (.compliance slo.Compliance)).1 := by
      rw [h1]
    split
    · rename_i d2 err h2
      have : d2 = (d1.Set "indicator" (.indicator slo.Indicator)).1 := by rw [h2]
      rw [this, get_set_of_ne _ _ _ _ (by decide), e1, get_set_of_ne _ _ _ _ (by decide), hs]
    · rename_i d2 h2
      have : d2 = (d1.Set "indicator" (.indicator slo.Indicator)).1 := by rw [h2]
      rw [this, get_set_of_ne _ _ _ _ (by decide), e1, get_set_of_ne _ _ _ _ (by decide), hs]

/-- When the gateway read returns an SLO, Read makes that one call and ends with the
handle and the error of the write-back. -/
theorem read_found {σ : Type} (c : Client σ) (d : ResourceData) (s s1 : σ)
    (slo : SLOLibrarySLO) (h : c.SLORead d.Id s = (.ok (some slo), s1)) :
    resourceSumologicSLORead c d s
      = ⟨(writeBack d slo).1, s1, [.sloRead d.Id], .returned (writeBack d slo).2⟩ := by
  simp only [resourceSumologicSLORead, h]

/-- C6, the code at the failing input: Read never changes what the handle holds for
`signal_type`; with the handle of SLO `abc` holding `Latency` and the server holding
`Error`, Read succeeds and takes over the server's name and version, and the handle
still holds `Latency`. -/
theorem read_skips_signal_type :
    (∀ (σ : Type) (c : Client σ) (d : ResourceData) (s : σ),
      (resourceSumologicSLORead c d s).d.Get "signal_type" = d.Get "signal_type") ∧
    serverSLO.SignalType = "Error" ∧
    (resourceSumologicSLORead (servingClient serverSLO) (decodableHandle "abc" "f") ()).result
      = .returned none ∧
    (resourceSumologicSLORead (servingClient serverSLO) (decodableHandle "abc" "f") ()).d.Get
      "name" = .str "checkout-latency-v2" ∧
    (resourceSumologicSLORead (servingClient serverSLO) (decodableHandle "abc" "f") ()).d.Get
      "version" = .int 3 ∧
    (resourceSumologicSLORead (servingClient serverSLO) (decodableHandle "abc" "f") ()).d.Get
      "signal_type" = .str "Latency" := by
  refine ⟨?_, rfl, rfl, rfl, rfl, rfl⟩
  intro σ c d s
  unfold resourceSumologicSLORead
  split
  · rfl
  · rfl
  · exact writeBack_signal_type d _

/-- C5, the code at the failing input: the configuration of scenario S1, in the shape
the schema declares, is not decoded at all: `getSLOCompliance` reads the key
`compliance_type`, which the mapping does not hold, and `resourceToSLO` panics; there is
no SLO to write back. With the compliance keys the decoder reads, decoding goes on and
panics on the indicator key `query_type`, the schema's key being `queryType`. The same
holds for every handle whose `compliance` mapping has only keys of the schema; the keys
`compliance_type`, `query_type`, top-level `queries`, `content_type` and `type` that the
decoder reads are none of them declared. -/
theorem schema_config_not_decoded :
    resourceToSLO handleS1 = .error (.typeAssertion "string") ∧
    getSLOCompliance handleS1 = .error (.typeAssertion "string") ∧
    mapIndex [("type", .str "Rolling"), ("target", .int 99), ("size", .str "7d")]
      "compliance_type" = .nil ∧
    getSLOCompliance ⟨"", ("compliance", .map [("compliance_type", .str "Rolling"),
        ("target", .int 99), ("timezone", .str ""), ("size", .str "7d")]) :: schemaFieldsS1,
        acceptAll⟩ = .ok ⟨"Rolling", 99, "", "7d"⟩ ∧
    getSLOIndicator ⟨"", ("compliance", .map [("compliance_type", .str "Rolling"),
        ("target", .int 99), ("timezone", .str ""), ("size", .str "7d")]) :: schemaFieldsS1,
        acceptAll⟩ = .error (.typeAssertion "string") ∧
    (∀ (d : ResourceData) (kvs : List (String × Value)), d.Get "compliance" = .map kvs →
      (∀ kv ∈ kvs, kv.1 ∈ complianceSchemaKeys) →
      resourceToSLO d = .error (.typeAssertion "string")) ∧
    (∀ kv ∈ schemaFieldsS1, kv.1 ∈ schemaKeys) ∧
    "compliance_type" ∉ complianceSchemaKeys ∧ "query_type" ∉ indicatorSchemaKeys ∧
    "queries" ∉ schemaKeys ∧ "content_type" ∉ schemaKeys ∧ "type" ∉ schemaKeys :=
  ⟨rfl, rfl, rfl, rfl, rfl, resourceToSLO_schema_shape, by decide, by decide, by decide,
    by decide, by decide, by decide⟩

/-! ## Query decoding (C9) -/

/-- A loop whose every step yields `q` yields `q` in every slot. -/
theorem mapM_const_ok {α : Type} (l : List α) (q : SLIQuery) :
    l.mapM (fun _ => (Except.ok q : Except Panic SLIQuery)) = .ok (l.map (fun _ => q)) := by
  induction l with
  | nil => rfl
  | cons a t ih => rw [List.mapM_cons, ih]; rfl

/-- A single group is decoded to as many copies of its first query as it has queries. -/
theorem single_group_repeats_first (q : SLIQuery) (qs : List SLIQuery) :
    GetSLOIndicatorQueries (queriesHandle [rawGroup (q :: qs)])
      = .ok [⟨"Threshold", List.replicate (qs.length + 1) q⟩] := by
  have h : decodeQueryGroup 0 (.query q :: qs.map Value.query)
      = .ok (List.replicate (qs.length + 1) q) := by
    unfold decodeQueryGroup
    have : (fun (_j : Nat) => (do
        let raw ← sliceIndex (.query q :: qs.map Value.query) 0
        asSLIQuery raw : Except Panic SLIQuery)) = fun _ => Except.ok q := by
      funext _; rfl
    rw [this, mapM_const_ok]
    simp
  have hq : decodeQueries [rawGroup (q :: qs)] 0
      = .ok ⟨"Threshold", List.replicate (qs.length + 1) q⟩ := by
    simp [decodeQueries, rawGroup, sliceIndex, asMap, asString, asList, mapIndex, h, bind,
      Except.bind, pure, Except.pure]
  have hr : GetSLOIndicatorQueries (queriesHandle [rawGroup (q :: qs)])
      = [0].mapM (decodeQueries [rawGroup (q :: qs)]) := rfl
  rw [hr, List.mapM_cons, hq, List.mapM_nil]
  rfl

/-- C9, the code at the failing inputs: a single group holding the queries A and B is
decoded to a group holding A twice, the inner list being indexed with the outer index 0;
with two groups of one query each, the second group indexes its one-element list at
1 and the decoder panics; on the handle of scenario S1, where `queries` sits inside
`indicator` as the schema declares, the first assertion panics; and every single group
is decoded to copies of its first query. -/
theorem queries_indexed_by_outer :
    GetSLOIndicatorQueries (queriesHandle [rawGroup [queryA, queryB]])
      = .ok [⟨"Threshold", [queryA, queryA]⟩] ∧
    GetSLOIndicatorQueries (queriesHandle [rawGroup [queryA], rawGroup [queryB]])
      = .error (.indexOutOfRange 1 1) ∧
    queryA ≠ queryB ∧
    GetSLOIndicatorQueries handleS1 = .error (.typeAssertion "[]interface {}") ∧
    (∀ (q : SLIQuery) (qs : List SLIQuery),
      GetSLOIndicatorQueries (queriesHandle [rawGroup (q :: qs)])
        = .ok [⟨"Threshold", List.replicate (qs.length + 1) q⟩]) :=
  ⟨rfl, rfl, by decide, rfl, single_group_repeats_first⟩

/-! ## Compliance decoding (C10) -/

/-- C10, the code at the failing inputs: the mapping of scenario S2, in the shape the
schema declares (`type`, `target`, `timezone`, no `size`), makes `getSLOCompliance`
panic on the key `compliance_type`; the same mapping under the key the decoder reads
panics on the absent `size`; a mapping holding all four keys the decoder reads is
decoded; and every mapping that has only keys of the schema makes it panic. -/
theorem compliance_schema_shape_panics :
    getSLOCompliance (complianceHandle
        [("type", .str "Calendar"), ("target", .int 99), ("timezone", .str "UTC")])
      = .error (.typeAssertion "string") ∧
    getSLOCompliance (complianceHandle
        [("compliance_type", .str "Calendar"), ("target", .int 99), ("timezone", .str "UTC")])
      = .error (.typeAssertion "string") ∧
    getSLOCompliance (complianceHandle
        [("type", .str "Rolling"), ("target", .int 99), ("size", .str "7d")])
      = .error (.typeAssertion "string") ∧
    getSLOCompliance (complianceHandle
        [("compliance_type", .str "Calendar"), ("target", .int 99), ("timezone", .str "UTC"),
         ("size", .str "")])
      = .ok ⟨"Calendar", 99, "UTC", ""⟩ ∧
    (∀ kvs : List (String × Value), (∀ kv ∈ kvs, kv.1 ∈ complianceSchemaKeys) →
      getSLOCompliance (complianceHandle kvs) = .error (.typeAssertion "string")) :=
  ⟨rfl, rfl, rfl, rfl, fun kvs h => getSLOCompliance_schema_shape _ kvs rfl h⟩

/-! ## The aggregation pattern (C7) -/

/-- A pattern that starts with `^` can only match from the start of the text. -/
theorem matchString_anchored (r : Regex) (s : String) :
    MatchString (.cat .beginText r) s = r.matchK (0, s.toList) (fun _ => true) := by
  unfold MatchString
  rw [List.range_succ_eq_map]
  simp [Regex.matchK]

/-- The strings the specification names, as character lists. -/
theorem specAggregationAccepts_toList (s : String) :
    specAggregationAccepts s
      = (s.toList == ['A', 'v', 'g'] || s.toList == ['M', 'i', 'n']
        || s.toList == ['M', 'a', 'x'] || s.toList == ['S', 'u', 'm']
        || percentileForm s.toList) := by
  have key : ∀ t : String, (s == t) = (s.toList == t.toList) := by
    intro t
    rw [Bool.eq_iff_iff]
    simp [String.ext_iff]
  unfold specAggregationAccepts
  rw [key "Avg", key "Min", key "Max", key "Sum"]
  rfl

/-- What the compiled source pattern accepts from the start of a text. -/
theorem sloAggregationRegex_matchK (cs : List Char) :
    sloAggregationRegex.matchK (0, cs) (fun _ => true)
      = (cs == ['A', 'v', 'g'] || cs == ['M', 'i', 'n'] || cs == ['M', 'a', 'x']
        || cs == ['S', 'u', 'm'] || percentileForm cs) := by
  rcases cs with _ | ⟨a, _ | ⟨b, _ | ⟨c, _ | ⟨d, _ | ⟨e, _ | ⟨f, _ | ⟨g, _ | ⟨h, t⟩⟩⟩⟩⟩⟩⟩⟩ <;>
    simp [sloAggregationRegex, Regex.matchK, stepK, repeatK, percentileForm, isDigitBetween,
      fractionForm, Bool.and_assoc, Bool.or_assoc]

/-- What the specification's pattern accepts from the start of a text. -/
theorem specAggregationRegex_matchK (cs : List Char) :
    specAggregationRegex.matchK (0, cs) (fun _ => true)
      = (cs == ['A', 'v', 'g'] || cs == ['M', 'i', 'n'] || cs == ['M', 'a', 'x']
        || cs == ['S', 'u', 'm'] || percentileForm cs) := by
  rcases cs with _ | ⟨a, _ | ⟨b, _ | ⟨c, _ | ⟨d, _ | ⟨e, _ | ⟨f, _ | ⟨g, _ | ⟨h, t⟩⟩⟩⟩⟩⟩⟩⟩ <;>
    simp [specAggregationRegex, Regex.matchK, stepK, repeatK, percentileForm, isDigitBetween,
      fractionForm, Bool.and_assoc, Bool.or_assoc]

/-- C7: the syntax trees are those of the two pattern texts; on every string the
pattern compiled from `sloAggregationRegexString` gives the same verdict as the
specification's pattern, and it accepts exactly `Avg`, `Min`, `Max`, `Sum` and `p`
followed by a digit 5-9, a digit 0-9 and optionally `.` with one to three digits; `p42`
is rejected. -/
theorem aggregation_pattern_equivalent :
    sloAggregationRegex.render = sloAggregationRegexString ∧
    specAggregationRegex.render = specAggregationRegexString ∧
    (∀ s : String, MatchString sloAggregationRegex s = MatchString specAggregationRegex s) ∧
    (∀ s : String, MatchString sloAggregationRegex s = specAggregationAccepts s) ∧
    MatchString sloAggregationRegex "p42" = false := by
  have hcode : ∀ s : String, MatchString sloAggregationRegex s = specAggregationAccepts s := by
    intro s
    rw [specAggregationAccepts_toList, ← sloAggregationRegex_matchK s.toList]
    exact matchString_anchored _ s
  have hspec : ∀ s : String, MatchString specAggregationRegex s = specAggregationAccepts s := by
    intro s
    rw [specAggregationAccepts_toList, ← specAggregationRegex_matchK s.toList]
    exact matchString_anchored _ s
  refine ⟨by decide, by decide, ?_, hcode, by decide⟩
  intro s
  rw [hcode, hspec]

end Sumologic
